import Mathlib

/-!
Shallow embedding of the client-side request/state orchestration layer of the
documentation_aggregator frontend: the Results list page (search, organization
filter, pagination, fetch, delete, edit, preview) and the Upload page (job
submission, tag working set).  Handlers are modelled as pure state
transformers; network calls are modelled by an explicit outcome argument
describing how the awaited promise resolved.
-/

namespace DocAgg

/-- The Result record as declared in the Results page (interface Result). -/
structure Result where
  id : String
  title : String
  url : String
  timestamp : String
  markdown_path : String
  pdf_path : String
  organization : Option String
  tags : Option (List String)
deriving DecidableEq, Repr

/-- The paginated response shape (interface ResultsResponse). -/
structure ResultsResponse where
  items : List Result
  total_pages : Nat
  page : Nat
  per_page : Nat
deriving DecidableEq, Repr

/-- The useState slots of the Results component, in declaration order.
results and totalPages are Options because fetchResults casts the parsed
body without checking it: setResults(data.items) stores undefined (none)
whenever the resolved body lacks an items field, and likewise
setTotalPages(data.total_pages). -/
structure ResultsState where
  results : Option (List Result)
  loading : Bool
  searchTerm : String
  organization : String
  page : Nat
  totalPages : Option Nat
  anchorEl : Bool
  selectedResult : Option Result
  editDialogOpen : Bool
  editTitle : String
  editTags : List String
  organizations : List String
  previewOpen : Bool
  previewHtml : Option String
  previewLoading : Bool
deriving DecidableEq, Repr

/-- The initial values passed to useState in the Results component. -/
def initialResultsState : ResultsState :=
  { results := some []
    loading := true
    searchTerm := ""
    organization := "all"
    page := 1
    totalPages := some 1
    anchorEl := false
    selectedResult := none
    editDialogOpen := false
    editTitle := ""
    editTags := []
    organizations := []
    previewOpen := false
    previewHtml := none
    previewLoading := false }

/-- The URLSearchParams built inside fetchResults: page, per_page fixed at
"10", search only when searchTerm is truthy, organization only when it is not
the "all" sentinel. -/
def resultsQueryParams (s : ResultsState) : List (String × String) :=
  [("page", toString s.page), ("per_page", "10")]
    ++ (if s.searchTerm ≠ "" then [("search", s.searchTerm)] else [])
    ++ (if s.organization ≠ "all" then [("organization", s.organization)] else [])

/-- How an awaited fetch of the results list resolves.  success: the parsed
body carries the ResultsResponse fields.  errorBody: the response resolved —
response.ok is never checked — with a parsable JSON body that is not a
ResultsResponse (the remote-rejection path, e.g. a detail field only), so
data.items and data.total_pages are undefined.  failure: the fetch rejected
or the body was unparsable, so response.json() threw (the thrown error's
description). -/
inductive FetchOutcome where
  | success (data : ResultsResponse)
  | errorBody (detail : Option String)
  | failure (err : String)
deriving DecidableEq, Repr

/-- The state change performed by fetchResults once its awaited fetch
resolves: any resolved response runs setResults(data.items) and
setTotalPages(data.total_pages) — with a non-ResultsResponse body both fields
are undefined, overwriting (blanking) the previous list; a thrown error only
runs console.error; in every case the finally block runs setLoading(false).
No generation counter appears anywhere in the source. -/
def fetchResultsApply (s : ResultsState) : FetchOutcome → ResultsState
  | .success data =>
      { s with results := some data.items, totalPages := some data.total_pages, loading := false }
  | .errorBody _ => { s with results := none, totalPages := none, loading := false }
  | .failure _ => { s with loading := false }

/-- The dependency array of the list-fetching useEffect:
[page, searchTerm, organization]. -/
def effectDeps (s : ResultsState) : Nat × String × String :=
  (s.page, s.searchTerm, s.organization)

/-- setOrganization plus setPage(1), as in handleOrganizationChange. -/
def handleOrganizationChange (s : ResultsState) (v : String) : ResultsState :=
  { s with organization := v, page := 1 }

/-- A user event changing one field of the list query: typing in the search
box (onChange is exactly setSearchTerm), picking an organization
(handleOrganizationChange), or clicking the pagination control (setPage). -/
inductive QueryChange where
  | setSearch (v : String)
  | setOrg (v : String)
  | setPage (v : Nat)
deriving DecidableEq, Repr

/-- Apply one query-changing event to the component state. -/
def applyChange (s : ResultsState) : QueryChange → ResultsState
  | .setSearch v => { s with searchTerm := v }
  | .setOrg v => handleOrganizationChange s v
  | .setPage v => { s with page := v }

/-- The fetches issued while a sequence of query-changing events is processed:
after each event the useEffect fires whenever its dependency array changed,
immediately issuing a fetch with the new state's params.  There is no timer
between the event and the fetch. -/
def fetchesIssued : ResultsState → List QueryChange → List (List (String × String))
  | _, [] => []
  | s, c :: cs =>
      let s' := applyChange s c
      (if effectDeps s' ≠ effectDeps s then [resultsQueryParams s'] else [])
        ++ fetchesIssued s' cs

/-- An in-flight list request together with the generation at which it was
issued.  The generation is bookkeeping of the model only: the source keeps no
such counter. -/
structure Arrival where
  gen : Nat
  outcome : FetchOutcome
deriving DecidableEq, Repr

/-- How the component processes list responses: each arriving response is
applied by fetchResultsApply in arrival order, unconditionally — the gen tag
is ignored because the source has no stale-response guard. -/
def applyArrivals (s : ResultsState) (arrivals : List Arrival) : ResultsState :=
  arrivals.foldl (fun acc a => fetchResultsApply acc a.outcome) s

/-- Spec-side model (spec 4.2), for comparison with applyArrivals: a
controller that keeps the current generation and applies a response only if
its generation equals the current one, discarding the rest. -/
structure GuardedListState where
  st : ResultsState
  curGen : Nat
deriving DecidableEq, Repr

/-- Spec-side model (spec 4.2): the stale-response guard the spec mandates. -/
def guardedApplyArrivals (g : GuardedListState) (arrivals : List Arrival) : GuardedListState :=
  arrivals.foldl
    (fun acc a =>
      if a.gen = acc.curGen then { acc with st := fetchResultsApply acc.st a.outcome } else acc)
    g

/-- handleMenuClose: clear the menu anchor and the selected result. -/
def handleMenuClose (s : ResultsState) : ResultsState :=
  { s with anchorEl := false, selectedResult := none }

/-- How an awaited fetch of a mutation (DELETE or PUT) resolves: thrown means
the promise rejected (network failure); response means it resolved, carrying
the HTTP ok flag — which the source never reads on these paths. -/
inductive HttpOutcome where
  | thrown
  | response (ok : Bool)
deriving DecidableEq, Repr

/-- Result of running a mutation handler: the new component state and the
number of fetchResults() invalidations it triggered. -/
structure MutationStep where
  state : ResultsState
  invalidations : Nat
deriving DecidableEq, Repr

/-- handleDelete: early return when no result is selected; otherwise await the
DELETE — if it resolves (status unchecked) call fetchResults(), if it throws
only console.error — then handleMenuClose() in either case. -/
def handleDelete (s : ResultsState) (o : HttpOutcome) : MutationStep :=
  match s.selectedResult with
  | none => { state := s, invalidations := 0 }
  | some _ =>
      match o with
      | .thrown => { state := handleMenuClose s, invalidations := 0 }
      | .response _ => { state := handleMenuClose s, invalidations := 1 }

/-- handleSaveEdit: early return when no result is selected; otherwise await
the PUT — if it resolves (status unchecked) call fetchResults() and close the
edit dialog, if it throws only console.error. -/
def handleSaveEdit (s : ResultsState) (o : HttpOutcome) : MutationStep :=
  match s.selectedResult with
  | none => { state := s, invalidations := 0 }
  | some _ =>
      match o with
      | .thrown => { state := s, invalidations := 0 }
      | .response _ => { state := { s with editDialogOpen := false }, invalidations := 1 }

/-- Result of starting a preview: the new state and the record id the request
URL is keyed by.  Only the URL depends on the record: the state updates are
setPreviewOpen(true) and setPreviewLoading(true) on the shared slots. -/
structure PreviewStart where
  state : ResultsState
  requestId : String
deriving DecidableEq, Repr

/-- The synchronous prefix of handlePreview(result), before the await. -/
def handlePreviewStart (s : ResultsState) (r : Result) : PreviewStart :=
  { state := { s with previewOpen := true, previewLoading := true }
    requestId := r.id }

/-- How an awaited preview fetch resolves: thrown covers a rejected fetch or
an unparsable body; response carries the decoded body's html field (absent or
empty string both count as falsy in the source's data.html check). -/
inductive PreviewOutcome where
  | thrown
  | response (html : Option String)
deriving DecidableEq, Repr

/-- The html string handlePreview stores for a given outcome:
data.html when truthy, the no-preview fallback otherwise, and the error
markup when the awaited fetch threw. -/
def previewRender : PreviewOutcome → String
  | .thrown => "<p>Error loading preview</p>"
  | .response html =>
      match html with
      | some h => if h = "" then "<p>No preview available</p>" else h
      | none => "<p>No preview available</p>"

/-- The continuation of handlePreview once its awaited fetch resolves:
setPreviewHtml on the single shared slot, then setPreviewLoading(false) in the
finally block.  The record id plays no part here. -/
def handlePreviewFinish (s : ResultsState) (o : PreviewOutcome) : ResultsState :=
  { s with previewHtml := some (previewRender o), previewLoading := false }

/-- Message severity used by the Upload page's Alert (type field). -/
inductive MessageType where
  | success
  | error
deriving DecidableEq, Repr

/-- The Upload page's message slot content. -/
structure UploadMessage where
  type : MessageType
  text : String
deriving DecidableEq, Repr

/-- The ClipResult shape declared in Upload.tsx (interface ClipResult). -/
structure ClipResult where
  title : String
  url : String
  status : String
  preview : Option String
  error : Option String
  markdown_path : Option String
  pdf_path : Option String
deriving DecidableEq, Repr

/-- The useState slots of the Upload component, in declaration order.  The
File object is represented by its name. -/
structure UploadState where
  url : String
  file : Option String
  isDragging : Bool
  loading : Bool
  message : Option UploadMessage
  organization : String
  tags : List String
  newTag : String
  clipResult : Option ClipResult
  showPreview : Bool
  processingMessage : String
deriving DecidableEq, Repr

/-- The initial values passed to useState in the Upload component. -/
def initialUploadState : UploadState :=
  { url := ""
    file := none
    isDragging := false
    loading := false
    message := none
    organization := ""
    tags := []
    newTag := ""
    clipResult := none
    showPreview := false
    processingMessage := "" }

/-- Model of the JavaScript string trim used by handleClip's guard: strip
leading and trailing whitespace.  Defined structurally over the character
list so that proofs can evaluate it on literals. -/
def jsTrim (s : String) : String :=
  String.mk (((s.data.dropWhile Char.isWhitespace).reverse.dropWhile Char.isWhitespace).reverse)

/-- How the awaited POST /clip resolves inside handleClip: thrown covers a
rejected fetch or an unparsable body (carrying the thrown error's message as
displayed); errorResponse is a resolved response with ok false whose parsed
body optionally carries a detail field; okResponse is a resolved ok response
parsed as a ClipResult. -/
inductive ClipOutcome where
  | thrown (msg : String)
  | errorResponse (detail : Option String)
  | okResponse (result : ClipResult)
deriving DecidableEq, Repr

/-- Result of invoking handleClip: the new component state and whether a
network request was issued to POST /clip. -/
structure ClipStep where
  state : UploadState
  requestIssued : Bool
deriving DecidableEq, Repr

/-- handleClip, modelled end to end.  Empty trimmed url: set an error message
and return before any network activity.  Otherwise set loading, clear
clipResult and message, choose the processing message by the sitemap.xml
suffix test, issue the POST, then: a thrown error sets an error message; a
non-ok response throws result.detail (or the generic text), caught as an
error message; an ok response stores the ClipResult, then either sets the
success message and opens the preview (status completed) or throws
result.error (or the generic text), caught as an error message.  The finally
block then runs setLoading(false) and setProcessingMessage(""). -/
def handleClip (s : UploadState) (o : ClipOutcome) : ClipStep :=
  if jsTrim s.url = "" then
    { state := { s with message := some ⟨.error, "Please enter a URL"⟩ }
      requestIssued := false }
  else
    let s1 :=
      { s with
        loading := true
        clipResult := none
        message := none
        processingMessage :=
          if s.url.endsWith "sitemap.xml" then
            "Processing sitemap URLs... This may take a few minutes"
          else
            "Fetching and processing content..." }
    let s2 :=
      match o with
      | .thrown msg => { s1 with message := some ⟨.error, msg⟩ }
      | .errorResponse detail =>
          { s1 with message := some ⟨.error, detail.getD "Failed to process URL"⟩ }
      | .okResponse result =>
          let s1' := { s1 with clipResult := some result }
          if result.status = "completed" then
            { s1' with
              message := some ⟨.success, "Successfully clipped: " ++ result.title⟩
              showPreview := true }
          else
            { s1' with message := some ⟨.error, result.error.getD "Failed to process content"⟩ }
    { state := { s2 with loading := false, processingMessage := "" }
      requestIssued := true }

/-- The Clip Now button's disabled prop is exactly the loading flag; this is
the only thing standing between a busy submission and a second one. -/
def clipButtonDisabled (s : UploadState) : Bool :=
  s.loading

/-- Upload.tsx contains no call into the Results page's fetchResults: no path
of handleClip triggers a List Query Controller invalidation. -/
def clipInvalidations (_s : UploadState) (_o : ClipOutcome) : Nat :=
  0

/-- handleAddTag: only when newTag is truthy and not already included, append
it and clear the input. -/
def handleAddTag (s : UploadState) : UploadState :=
  if s.newTag ≠ "" ∧ s.newTag ∉ s.tags then
    { s with tags := s.tags ++ [s.newTag], newTag := "" }
  else
    s

/-- handleRemoveTag: keep every tag different from tagToRemove. -/
def handleRemoveTag (s : UploadState) (tagToRemove : String) : UploadState :=
  { s with tags := s.tags.filter (fun tag => tag ≠ tagToRemove) }

/-- The user-level add-tag action: type t into the tag input, then trigger
handleAddTag (Enter key or Add button). -/
def addTag (s : UploadState) (t : String) : UploadState :=
  handleAddTag { s with newTag := t }

/-- handleClip issues the POST exactly when the trimmed url is nonempty; no
other field of the state is consulted before dispatch. -/
theorem handleClip_requestIssued (s : UploadState) (o : ClipOutcome) :
    (handleClip s o).requestIssued = if jsTrim s.url = "" then false else true := by
  unfold handleClip
  by_cases h : jsTrim s.url = ""
  · rw [if_pos h, if_pos h]
  · rw [if_neg h, if_neg h]

/-! Concrete fixtures used by counterexamples and witnesses. -/

/-- A concrete record. -/
def recA : Result :=
  { id := "a1"
    title := "Alpha"
    url := "https://a.example/doc"
    timestamp := "2024-01-01T00:00:00Z"
    markdown_path := "a.md"
    pdf_path := "a.pdf"
    organization := none
    tags := none }

/-- A second, distinct concrete record. -/
def recB : Result :=
  { id := "b1"
    title := "Beta"
    url := "https://b.example/doc"
    timestamp := "2024-01-02T00:00:00Z"
    markdown_path := "b.md"
    pdf_path := "b.pdf"
    organization := none
    tags := none }

/-- Response of an older (stale) request. -/
def respA : ResultsResponse :=
  { items := [recA], total_pages := 1, page := 1, per_page := 10 }

/-- Response of the newest request. -/
def respB : ResultsResponse :=
  { items := [recB], total_pages := 1, page := 1, per_page := 10 }

/-- A Results state with a loaded page. -/
def loadedState : ResultsState :=
  { initialResultsState with
    results := some [recA, recB], totalPages := some 3, loading := false }

/-- A Results state with a selected record and the context menu open. -/
def selState : ResultsState :=
  { initialResultsState with selectedResult := some recA, anchorEl := true }

/-- An Upload state with a submission in flight. -/
def busyUploadState : UploadState :=
  { initialUploadState with url := "https://docs.example.com/guide", loading := true }

/-- An Upload state whose url is whitespace only. -/
def blankUrlState : UploadState :=
  { initialUploadState with url := "   " }

/-- An Upload state with two tags in the working set. -/
def taggedState : UploadState :=
  { initialUploadState with tags := ["lean", "docs"] }

/-! Claim theorems. -/

/-- C1: the claim says only the response whose generation equals the current
one is applied, stale in-flight responses being discarded.  The source has no
generation counter: responses are applied in arrival order.  At the failing
input — the gen-2 response arrives, then the delayed gen-1 response — the code
displays the stale gen-1 items, while the spec's guarded controller keeps the
gen-2 items. -/
theorem C1_stale_response_overwrites_newer :
    (applyArrivals initialResultsState
        [⟨2, .success respB⟩, ⟨1, .success respA⟩]).results = some [recA]
      ∧ recA ≠ recB
      ∧ (guardedApplyArrivals ⟨initialResultsState, 2⟩
            [⟨2, .success respB⟩, ⟨1, .success respA⟩]).st.results = some [recB] := by
  refine ⟨rfl, by decide, rfl⟩

/-- C2 counterexample: changing searchTerm does not reset page — from page 5,
typing a search term leaves page at 5, and the next fetch is issued with
page=5, refuting the claim that any searchTerm change resets page to 1. -/
theorem C2_search_change_keeps_page :
    (applyChange { initialResultsState with page := 5 } (.setSearch "x")).page = 5
      ∧ (5 : Nat) ≠ 1
      ∧ fetchesIssued { initialResultsState with page := 5 } [.setSearch "x"]
          = [[("page", "5"), ("per_page", "10"), ("search", "x")]] := by
  refine ⟨rfl, by decide, by decide⟩

/-- C2 amended: changing organizationFilter resets page to 1 and leaves
searchTerm unchanged; changing searchTerm leaves page and organizationFilter
unchanged (it does not reset page); changing page alone leaves searchTerm and
organizationFilter unchanged. -/
theorem C2_page_reset_only_on_org_change (s : ResultsState) (v : String) (n : Nat) :
    (applyChange s (.setOrg v)).page = 1
      ∧ (applyChange s (.setOrg v)).searchTerm = s.searchTerm
      ∧ (applyChange s (.setSearch v)).page = s.page
      ∧ (applyChange s (.setSearch v)).organization = s.organization
      ∧ (applyChange s (.setPage n)).searchTerm = s.searchTerm
      ∧ (applyChange s (.setPage n)).organization = s.organization :=
  ⟨rfl, rfl, rfl, rfl, rfl, rfl⟩

/-- C3 counterexample: with a submission already in flight (loading true),
invoking handleClip again is not rejected — a second network request is
issued, refuting the claimed client-side phase check. -/
theorem C3_busy_submit_issues_request :
    busyUploadState.loading = true
      ∧ (handleClip busyUploadState (.thrown "TypeError: Failed to fetch")).requestIssued
          = true :=
  ⟨rfl, by decide⟩

/-- C3 amended: handleClip performs no phase check — it issues a network
request exactly when the trimmed url is nonempty, regardless of the loading
flag; concurrent submission is prevented only by the Clip Now button's
disabled prop, which equals the loading flag (a presentation concern). -/
theorem C3_no_phase_check_only_disabled_button (s : UploadState) (o : ClipOutcome) :
    ((handleClip s o).requestIssued = true ↔ jsTrim s.url ≠ "")
      ∧ clipButtonDisabled s = s.loading := by
  refine ⟨?_, rfl⟩
  rw [handleClip_requestIssued]
  by_cases h : jsTrim s.url = "" <;> simp [h]

/-- C4 counterexample: there is no debounce — typing "foo" and then, before
any quiescence window could elapse, "foobar" issues two fetches, not the
claimed exactly one. -/
theorem C4_two_fetches_issued :
    (fetchesIssued initialResultsState [.setSearch "foo", .setSearch "foobar"]).length = 2
      ∧ (2 : Nat) ≠ 1 :=
  ⟨by decide, by decide⟩

/-- C4 amended: every query change — searchTerm included — triggers a fetch
immediately: the foo/foobar sequence issues one fetch per change, the last
carrying search=foobar; organization and page changes also fetch
immediately. -/
theorem C4_every_change_fetches_immediately :
    fetchesIssued initialResultsState [.setSearch "foo", .setSearch "foobar"]
        = [[("page", "1"), ("per_page", "10"), ("search", "foo")],
           [("page", "1"), ("per_page", "10"), ("search", "foobar")]]
      ∧ fetchesIssued initialResultsState [.setOrg "acme"]
          = [[("page", "1"), ("per_page", "10"), ("organization", "acme")]]
      ∧ fetchesIssued initialResultsState [.setPage 2]
          = [[("page", "2"), ("per_page", "10")]] := by
  refine ⟨by decide, by decide, by decide⟩

/-- Invalidations a mutation handler triggers for a given outcome of its
awaited fetch: one whenever the promise resolved (the HTTP status is never
inspected), none when it threw. -/
def resolvedInvalidations : HttpOutcome → Nat
  | .thrown => 0
  | .response _ => 1

/-- C5 counterexample: a delete whose remote call fails with an HTTP error
status (the promise resolves with ok false) still triggers one fetchResults
invalidation, refuting the claim that a failed call triggers none. -/
theorem C5_failed_delete_still_invalidates :
    (handleDelete selState (.response false)).invalidations = 1
      ∧ (1 : Nat) ≠ 0 :=
  ⟨rfl, by decide⟩

/-- C5 amended: with a record selected, delete and edit trigger exactly one
invalidation whenever their awaited fetch resolves — the HTTP status is not
checked, so an error response also counts — and none when it throws; and
handleClip (job submission) never triggers a List Query Controller
invalidation on any path. -/
theorem C5_invalidation_on_resolve (s : ResultsState) (r : Result)
    (h : s.selectedResult = some r) (o : HttpOutcome)
    (u : UploadState) (co : ClipOutcome) :
    (handleDelete s o).invalidations = resolvedInvalidations o
      ∧ (handleSaveEdit s o).invalidations = resolvedInvalidations o
      ∧ clipInvalidations u co = 0 := by
  cases o <;>
    simp [handleDelete, handleSaveEdit, clipInvalidations, resolvedInvalidations, h]

/-- C5 witness: the amended statement at a concrete selected-record state and
a thrown outcome. -/
theorem C5_invalidation_on_resolve_witness :
    selState.selectedResult = some recA
      ∧ ((handleDelete selState .thrown).invalidations = resolvedInvalidations .thrown
          ∧ (handleSaveEdit selState .thrown).invalidations = resolvedInvalidations .thrown
          ∧ clipInvalidations initialUploadState (.thrown "e") = 0) :=
  ⟨rfl, C5_invalidation_on_resolve selState recA rfl .thrown initialUploadState (.thrown "e")⟩

/-- C6 counterexample: both halves of the claim fail.  A refresh that
resolves with a parsable error body (response.ok is never checked) overwrites
the previously loaded items and totalPages with undefined, blanking the list
rather than preserving it; and the error of a thrown failure is not retained
for display — two failures with different errors leave the component in the
very same state, which records nothing beyond clearing the loading flag (the
source only writes the error to the console). -/
theorem C6_error_not_retained :
    (fetchResultsApply loadedState (.errorBody (some "Internal Server Error"))).results = none
      ∧ loadedState.results = some [recA, recB]
      ∧ (some [recA, recB] : Option (List Result)) ≠ none
      ∧ fetchResultsApply loadedState (.failure "NetworkError: connection refused")
          = fetchResultsApply loadedState (.failure "DecodeError: invalid JSON")
      ∧ ("NetworkError: connection refused" : String) ≠ "DecodeError: invalid JSON"
      ∧ fetchResultsApply loadedState (.failure "NetworkError: connection refused")
          = { loadedState with loading := false } :=
  ⟨rfl, rfl, by decide, rfl, by decide, rfl⟩

/-- C6 amended: only a refresh whose awaited promise throws (network failure
or unparsable body) preserves the previously loaded items and totalPages —
its entire effect is clearing the loading flag; a refresh that resolves with
a parsable non-ResultsResponse body (the remote-rejection path, status
unchecked) overwrites both with undefined, blanking the list; in neither
case is the error retained in component state for display — it is only
logged to the console. -/
theorem C6_thrown_preserves_resolved_blanks (s : ResultsState) (e : String)
    (d : Option String) :
    (fetchResultsApply s (.failure e)).results = s.results
      ∧ (fetchResultsApply s (.failure e)).totalPages = s.totalPages
      ∧ fetchResultsApply s (.failure e) = { s with loading := false }
      ∧ (fetchResultsApply s (.errorBody d)).results = none
      ∧ (fetchResultsApply s (.errorBody d)).totalPages = none
      ∧ fetchResultsApply s (.errorBody d)
          = { s with results := none, totalPages := none, loading := false } :=
  ⟨rfl, rfl, rfl, rfl, rfl, rfl⟩

/-- C7: a submission whose url is empty after trimming sets the error message
"Please enter a URL" and returns before any network activity: the state
change is exactly that message, and no request is issued. -/
theorem C7_empty_input_never_reaches_network (s : UploadState) (o : ClipOutcome)
    (h : jsTrim s.url = "") :
    handleClip s o
      = { state := { s with message := some ⟨.error, "Please enter a URL"⟩ }
          requestIssued := false } := by
  unfold handleClip
  exact if_pos h

/-- C7 witness: the theorem at a whitespace-only url and an arbitrary
outcome. -/
theorem C7_empty_input_never_reaches_network_witness :
    jsTrim blankUrlState.url = ""
      ∧ handleClip blankUrlState (.thrown "unreached")
          = { state := { blankUrlState with message := some ⟨.error, "Please enter a URL"⟩ }
              requestIssued := false } :=
  ⟨by decide, C7_empty_input_never_reaches_network blankUrlState (.thrown "unreached") (by decide)⟩

/-- C8: the tag working set has set semantics — adding a tag already present
leaves the list unchanged, adding the same tag twice yields the same list as
adding it once, and removing a tag removes every occurrence of it while
preserving the multiplicity of every other tag. -/
theorem C8_tag_set_semantics (s : UploadState) (t : String) (h : t ∈ s.tags) :
    (addTag s t).tags = s.tags
      ∧ (∀ u : UploadState, ∀ v : String, (addTag (addTag u v) v).tags = (addTag u v).tags)
      ∧ (handleRemoveTag s t).tags.count t = 0
      ∧ ∀ u : String, u ≠ t → (handleRemoveTag s t).tags.count u = s.tags.count u := by
  refine ⟨?_, ?_, ?_, ?_⟩
  · simp [addTag, handleAddTag, h]
  · intro u v
    by_cases h1 : v = ""
    · simp [addTag, handleAddTag, h1]
    · by_cases h2 : v ∈ u.tags
      · simp [addTag, handleAddTag, h1, h2]
      · simp [addTag, handleAddTag, h1, h2]
  · rw [List.count_eq_zero]
    simp [handleRemoveTag]
  · intro u hu
    simp only [handleRemoveTag]
    rw [List.count_filter]
    simp [hu]

/-- C8 witness: the theorem at a state holding the tags lean and docs, with
the already-present tag docs. -/
theorem C8_tag_set_semantics_witness :
    "docs" ∈ taggedState.tags
      ∧ ((addTag taggedState "docs").tags = taggedState.tags
          ∧ (∀ u : UploadState, ∀ v : String,
              (addTag (addTag u v) v).tags = (addTag u v).tags)
          ∧ (handleRemoveTag taggedState "docs").tags.count "docs" = 0
          ∧ ∀ u : String, u ≠ "docs" →
              (handleRemoveTag taggedState "docs").tags.count u
                = taggedState.tags.count u) :=
  ⟨by decide, C8_tag_set_semantics taggedState "docs" (by decide)⟩

/-- C9 counterexample: preview state is one shared slot, not keyed by record
id — starting a preview for recA changes the state exactly as starting one
for recB although their ids differ, and when two previews run concurrently
(start A, start B, A's response arrives, then B's) the second request's
response overwrites the first's loaded content. -/
theorem C9_shared_preview_slot :
    (handlePreviewStart initialResultsState recA).state
        = (handlePreviewStart initialResultsState recB).state
      ∧ recA.id ≠ recB.id
      ∧ (handlePreviewFinish
            (handlePreviewFinish
              (handlePreviewStart (handlePreviewStart initialResultsState recA).state recB).state
              (.response (some "<p>Alpha preview</p>")))
            (.response (some "<p>Beta preview</p>"))).previewHtml
          = some "<p>Beta preview</p>"
      ∧ (some "<p>Beta preview</p>" : Option String) ≠ some "<p>Alpha preview</p>" :=
  ⟨rfl, by decide, by decide, by decide⟩

/-- C9 amended: only the request URL is keyed by the record id — the state
updates of a preview start are identical for any two records, and a preview
completion overwrites the single shared previewHtml slot regardless of its
previous content, clearing the shared loading flag; concurrent previews
therefore share one slot and the last arrival wins. -/
theorem C9_single_slot_last_arrival_wins (s : ResultsState) (r1 r2 : Result)
    (o : PreviewOutcome) (x : Option String) :
    (handlePreviewStart s r1).state = (handlePreviewStart s r2).state
      ∧ (handlePreviewStart s r1).requestId = r1.id
      ∧ (handlePreviewFinish { s with previewHtml := x } o).previewHtml
          = (handlePreviewFinish s o).previewHtml
      ∧ (handlePreviewFinish s o).previewLoading = false :=
  ⟨rfl, rfl, rfl, rfl⟩

/-- C10: whenever handleClip actually starts a submission (nonempty trimmed
url), every outcome of the awaited call — success, remote-reported failure,
or a thrown error — passes through the finally block, leaving the loading
flag false and the processing message empty, so a later submission is never
blocked by a stuck submitting phase. -/
theorem C10_finally_always_rearms (s : UploadState) (o : ClipOutcome)
    (h : jsTrim s.url ≠ "") :
    (handleClip s o).state.loading = false
      ∧ (handleClip s o).state.processingMessage = "" := by
  unfold handleClip
  rw [if_neg h]
  exact ⟨rfl, rfl⟩

/-- C10 witness: the theorem at a busy state with a nonempty url and a
remote-rejected outcome. -/
theorem C10_finally_always_rearms_witness :
    jsTrim busyUploadState.url ≠ ""
      ∧ ((handleClip busyUploadState (.errorResponse (some "invalid url"))).state.loading = false
          ∧ (handleClip busyUploadState (.errorResponse (some "invalid url"))).state.processingMessage
              = "") :=
  ⟨by decide, C10_finally_always_rearms busyUploadState (.errorResponse (some "invalid url"))
    (by decide)⟩

end DocAgg
